import Mathlib

/-!
Verification of the multi-turn slot-filling dialogue orchestrator in
`src/backend/main.py` (FastAPI app) and its configuration manager
`src/backend/config/intent_manager.py`.

The embedding models the mutable per-session record as a `ChatSession`
value, Python dicts (unique keys, insertion-ordered) as association
lists, and one call of the `/chat` endpoint as the pure function
`chatTurn`.  The two external services (the Gemini extraction call and
the You.com search call) are inputs of the turn: the extraction's parsed
result is the pair of a detected intent and an entity map, and the
search outcome is an `Except` value (`.error` models the exception path
of `search_with_you_api`).  The intent/entity registry is loaded from a
JSON file that is not part of the sources, so the turn is parametric in
a `Config` record exposing exactly the queries `main.py` makes of
`config_manager` and of `REQUIRED_ENTITIES_BY_INTENT`.
-/

/-- Association-list lookup, modelling `d[k]` / `k in d` on a Python dict
whose keys are unique. -/
def dictLookup {α : Type} : List (String × α) → String → Option α
  | [], _ => none
  | (k, v) :: rest, key => if k = key then some v else dictLookup rest key

/-- Association-list update, modelling `d[k] = v` on a Python dict: an existing
key keeps its position (first occurrence is replaced), a new key is appended. -/
def dictSet {α : Type} : List (String × α) → String → α → List (String × α)
  | [], key, val => [(key, val)]
  | (k, v) :: rest, key, val =>
      if k = key then (k, val) :: rest else (k, v) :: dictSet rest key val

/-- Association-list deletion, modelling `del d[k]`. -/
def dictDel {α : Type} (m : List (String × α)) (key : String) : List (String × α) :=
  m.filter (fun kv => kv.1 ≠ key)

/-- Truthiness of `session["intent"]` (a `str | None` field) in Python:
`None` and the empty string are falsy. -/
def optTruthy : Option String → Bool
  | none => false
  | some s => s != ""

/-- The `pending_entity_confirmation` record stored by `/chat` when an intent
switch finds reusable entities (main.py lines 1357-1361). -/
structure PendingConf where
  new_intent : String
  reusable_entities : List (String × String)
deriving Repr, DecidableEq

/-- One session of the in-memory `sessions` store, as initialised by
`get_or_create_session` (main.py lines 145-154).  Timestamps are seconds;
conversation history keeps the message contents in order. -/
structure StoredSession where
  id : String
  created_at : Nat
  last_activity : Nat
  collected_entities : List (String × String)
  conversation_history : List String
  intent : Option String
  stage : String
  pending_entity_confirmation : Option PendingConf
deriving Repr, DecidableEq

/-- The slice of a session that the `/chat` turn reads and writes. -/
structure ChatSession where
  intent : Option String
  stage : String
  collected_entities : List (String × String)
  pending_entity_confirmation : Option PendingConf
  conversation_history : List String
deriving Repr, DecidableEq

/-- The registry queries `main.py` makes: `VALID_ENTITIES`,
`REQUIRED_ENTITIES_BY_INTENT.get(i, [])` / `get_required_entities`,
`get_optional_entities`, and the question text `get_entity_question`
produces for an entity (static template or LLM-generated; either way the
question produced for the entity asked about). -/
structure Config where
  valid_entities : List String
  required_of : String → List String
  optional_of : String → List String
  question_of : String → String

/-- The missing-entity computation of `determine_next_question` and of the
`/chat` body (main.py lines 477-480 and 1398-1401): required entities, in
registry order, that are absent or have a falsy (empty) value. -/
def missingEntities (required : List String) (collected : List (String × String)) : List String :=
  required.filter (fun e =>
    match dictLookup collected e with
    | none => true
    | some v => v == "")

/-- Embedding of `determine_next_question` (main.py lines 454-503): `none`
when the intent needs no entities or nothing is missing, otherwise the
question for the first missing required entity. -/
def determine_next_question (cfg : Config) (collected : List (String × String))
    (intent : String) : Option String :=
  let required := cfg.required_of intent
  if required.isEmpty then none
  else
    match missingEntities required collected with
    | [] => none
    | next_entity :: _ => some (cfg.question_of next_entity)

/-- Embedding of the entity-merge loop of `/chat` (main.py lines 1384-1392):
each extracted pair whose key is a known entity and whose value is truthy is
written into the collected map, except that a `topic` entity is skipped when
the newly detected intent is `News`. -/
def mergeEntities (cfg : Config) (intent : String) (collected : List (String × String))
    (new_entities : List (String × String)) : List (String × String) :=
  new_entities.foldl (fun acc kv =>
    if cfg.valid_entities.contains kv.1 && kv.2 != "" then
      if intent == "News" && kv.1 == "topic" then acc
      else dictSet acc kv.1 kv.2
    else acc) collected

/-- Required entities for the session's current (optional) intent:
`REQUIRED_ENTITIES_BY_INTENT.get(session["intent"], [])`. -/
def requiredForSession (cfg : Config) : Option String → List String
  | none => []
  | some i => cfg.required_of i

/-- The fields of `ConversationResponse` that the `/chat` turn fills in
(main.py lines 63-70). -/
structure ChatResponse where
  response : String
  requires_input : Bool
  next_question : Option String
  collected_entities : List (String × String)
  search_results : Option (List String)
  status : String
deriving Repr, DecidableEq

/-- Embedding of `generate_acknowledgment` (main.py lines 506-548): two canned
variants per known entity, cycled by the collected count, with a generic
fallback line for other entities. -/
def generate_acknowledgment (entity_name : String) (entity_value : String)
    (collected_count : Nat) : String :=
  let ack_list : List String :=
    if entity_name == "age" then
      ["Thank you! I found quite a few insurance options for someone who is " ++
         entity_value ++ " years old.",
       "Excellent! There are several plans available for your age group (" ++
         entity_value ++ ")."]
    else if entity_name == "income" then
      ["Perfect! Based on an income of $" ++ entity_value ++
         ", I can see there are multiple affordable options.",
       "Great! With that income level, you may qualify for some excellent plans."]
    else if entity_name == "county" then
      ["Wonderful! " ++ entity_value ++ " county has many insurance providers to choose from.",
       "Thanks! There are several quality insurance plans available in " ++
         entity_value ++ " county."]
    else if entity_name == "plan_name" then
      ["Got it! Looking into " ++ entity_value ++ " for you.",
       "Perfect! Let me find details about " ++ entity_value ++ "."]
    else if entity_name == "insurer" then
      ["Great! I will search for plans from " ++ entity_value ++ ".",
       "Understood! Looking at the offerings of " ++ entity_value ++ "."]
    else if entity_name == "year" then
      ["Perfect! I will focus on " ++ entity_value ++ " plans.",
       "Got it! Searching for " ++ entity_value ++ " coverage options."]
    else if entity_name == "provider_name" then
      ["Thank you! Looking up information for " ++ entity_value ++ ".",
       "Got it! Checking network coverage for " ++ entity_value ++ "."]
    else if entity_name == "specialty" then
      ["Perfect! Searching for " ++ entity_value ++ " providers.",
       "Understood! Finding " ++ entity_value ++ " specialists for you."]
    else if entity_name == "topic" then
      ["Great question about " ++ entity_value ++ "! Let me help you with that.",
       "I understand you want to know about " ++ entity_value ++ "."]
    else
      ["Got it, " ++ entity_name ++ ": " ++ entity_value]
  ((ack_list.get? (collected_count % ack_list.length)).getD "")

/-- The confirmation message built on an intent switch with reusable entities
(main.py lines 1350-1354). -/
def confirmationMsg (reusable : List (String × String)) (intent : String) : String :=
  let entity_descriptions := reusable.map (fun kv =>
    (kv.1.replace "_" " ") ++ ": " ++ kv.2)
  "I see you were asking about " ++ String.intercalate ", " entity_descriptions ++
    ". Would you like me to use this for your " ++ intent.toLower ++
    " query, or would you prefer to start fresh?"

/-- The summary line built after a successful search (main.py lines 1492-1508),
keyed by the detected intent and the collected demographic entities. -/
def buildSummary (intent : String) (entities : List (String × String)) (n : Nat) : String :=
  if intent == "News" || intent == "FAQ" then
    "I found " ++ toString n ++ " results for you:"
  else
    let part (key label : String) : List String :=
      match dictLookup entities key with
      | some v => if v != "" then [label ++ v] else []
      | none => []
    let profile_parts := part "age" "Age: " ++ part "income" "Income: $" ++ part "county" "County: "
    if !profile_parts.isEmpty then
      "Based on your profile (" ++ String.intercalate ", " profile_parts ++
        "), I found " ++ toString n ++ " insurance options for you:"
    else
      "I found " ++ toString n ++ " insurance options for you:"

/-- The top-of-turn reset of `/chat` (main.py lines 1229-1236): a session whose
previous query completed is cleared back to the initial stage. -/
def completeClear (s : ChatSession) : ChatSession :=
  if s.stage == "complete" then
    { s with collected_entities := [], intent := none, stage := "initial" }
  else s

/-- The reusable-entity computation of the intent-switch branch (main.py
line 1344): collected entities whose key is required for the new intent. -/
def reusableEntities (cfg : Config) (new_intent : String)
    (collected : List (String × String)) : List (String × String) :=
  collected.filter (fun kv => (cfg.required_of new_intent).contains kv.1)

/-- The early return of the intent-switch branch (main.py lines 1346-1371):
store the pending confirmation, move the stage to `confirming_entities` and
ask the user whether to reuse the old entities. -/
def confirmTurn (cfg : Config) (s : ChatSession) (detected : String) :
    ChatSession × ChatResponse :=
  let reusable := reusableEntities cfg detected s.collected_entities
  let msg := confirmationMsg reusable detected
  ({ s with pending_entity_confirmation := some ⟨detected, reusable⟩,
            stage := "confirming_entities" },
   { response := msg, requires_input := true, next_question := some msg,
     collected_entities := s.collected_entities, search_results := none,
     status := "collecting" })

/-- The still-collecting branch of the `/chat` turn (main.py lines 1410-1467):
the session (already holding the merged entities) moves to the `collecting`
stage, an acknowledgment of the most recent extracted entity may prefix the
response, and the next question is the one `determine_next_question` builds
for the newly detected intent. -/
def collectingTurn (cfg : Config) (s : ChatSession) (detected : String)
    (new_entities : List (String × String)) : ChatSession × ChatResponse :=
  let s := { s with stage := "collecting" }
  let response_text :=
    match new_entities.getLast? with
    | some kv =>
      match dictLookup s.collected_entities kv.1 with
      | some v => generate_acknowledgment kv.1 v s.collected_entities.length
      | none => ""
    | none => ""
  let next_question := determine_next_question cfg s.collected_entities detected
  let full_response :=
    match next_question with
    | some q => if response_text != "" then response_text ++ "\n\n" ++ q else q
    | none =>
      if response_text != "" then response_text
      else "I am gathering information to help you find the best insurance options."
  let s := { s with conversation_history := s.conversation_history ++ [full_response] }
  (s, { response := full_response, requires_input := true,
        next_question := next_question, collected_entities := s.collected_entities,
        search_results := none, status := "collecting" })

/-- The search branch of the `/chat` turn (main.py lines 1469-1535): the stage
moves to `searching`, the external search runs, and on success the stage
becomes `complete` with the results attached, while the exception path
returns an `error` status and leaves the session's entities in place. -/
def searchTurn (s : ChatSession) (detected : String)
    (search_outcome : Except String (List String)) : ChatSession × ChatResponse :=
  let s := { s with stage := "searching" }
  let acknowledgment :=
    "Perfect! I now have all the information I need. Let me search for the best insurance options for you..."
  let s := { s with conversation_history := s.conversation_history ++ [acknowledgment] }
  match search_outcome with
  | .ok results =>
    let s := { s with stage := "complete" }
    let summary := buildSummary detected s.collected_entities results.length
    let s := { s with conversation_history := s.conversation_history ++ [summary] }
    (s, { response := summary, requires_input := false, next_question := none,
          collected_entities := s.collected_entities, search_results := some results,
          status := "complete" })
  | .error e =>
    (s, { response := "I encountered an error while searching: " ++ e,
          requires_input := false, next_question := none,
          collected_entities := s.collected_entities, search_results := none,
          status := "error" })

/-- The tail of the `/chat` turn after intent resolution (main.py lines
1384-1535): merge the extracted entities, recompute the missing required
entities of the session intent, and either ask the next question or run the
search.  `search_outcome` is the external You.com call: `.ok` its result
list, `.error` the exception text of the failure path. -/
def chatProceed (cfg : Config) (s : ChatSession) (detected : String)
    (new_entities : List (String × String))
    (search_outcome : Except String (List String)) : ChatSession × ChatResponse :=
  let s := { s with
    collected_entities := mergeEntities cfg detected s.collected_entities new_entities }
  let missing_entities := missingEntities (requiredForSession cfg s.intent) s.collected_entities
  if !missing_entities.isEmpty && s.stage != "complete" then
    collectingTurn cfg s detected new_entities
  else
    searchTurn s detected search_outcome

/-- Embedding of one `/chat` turn (main.py lines 1200-1535), given the parsed
result of the external extraction call (`detected`, `new_entities`) and the
outcome of the external search call.  History append, complete-stage reset,
intent resolution with the reconciliation branch, then `chatProceed`. -/
def chatTurn (cfg : Config) (s0 : ChatSession) (query detected : String)
    (new_entities : List (String × String))
    (search_outcome : Except String (List String)) : ChatSession × ChatResponse :=
  let s1 := { s0 with conversation_history := s0.conversation_history ++ [query] }
  let s2 := completeClear s1
  if s2.stage != "collecting" || !(optTruthy s2.intent) then
    if optTruthy s2.intent && (s2.intent.getD "" != detected) &&
        !(s2.collected_entities.isEmpty) then
      if !(reusableEntities cfg detected s2.collected_entities).isEmpty then
        confirmTurn cfg s2 detected
      else
        chatProceed cfg { s2 with collected_entities := [], intent := some detected }
          detected new_entities search_outcome
    else
      chatProceed cfg { s2 with intent := some detected } detected new_entities search_outcome
  else
    chatProceed cfg s2 detected new_entities search_outcome

/-- The in-memory `sessions` map (main.py line 33). -/
abbrev SessionStore := List (String × StoredSession)

/-- The session timeout (main.py line 34, `timedelta(hours=1)`), in seconds. -/
def SESSION_TIMEOUT : Nat := 3600

/-- A freshly allocated session (main.py lines 144-154). -/
def freshSession (now : Nat) (fresh_id : String) : StoredSession :=
  { id := fresh_id, created_at := now, last_activity := now,
    collected_entities := [], conversation_history := [], intent := none,
    stage := "initial", pending_entity_confirmation := none }

/-- Embedding of `get_or_create_session` (main.py lines 128-158).  `now` is
the clock reading of the call and `fresh_id` the uuid that would be generated
if a new session is needed.  An expired session is deleted and the id treated
as absent; the returned session always has its `last_activity` set to `now`. -/
def get_or_create_session (store : SessionStore) (session_id : Option String)
    (now : Nat) (fresh_id : String) : String × StoredSession × SessionStore :=
  let checked : Option String × SessionStore :=
    match session_id with
    | some sid =>
      if sid == "" then (none, store)
      else
        match dictLookup store sid with
        | some sess =>
          if now - sess.last_activity > SESSION_TIMEOUT then (none, dictDel store sid)
          else (some sid, store)
        | none => (none, store)
    | none => (none, store)
  match checked with
  | (some sid, st) =>
    match dictLookup st sid with
    | some sess =>
      let sess2 := { sess with last_activity := now }
      (sid, sess2, dictSet st sid sess2)
    | none =>
      -- unreachable: `checked` keeps `sid` only when it is live in `st`
      let sess2 := freshSession now sid
      (sid, sess2, dictSet st sid sess2)
  | (none, st) =>
    let sess := freshSession now fresh_id
    (fresh_id, sess, dictSet st fresh_id sess)

/-- Embedding of the `GET /session/:id` handler (main.py lines 1544-1550):
`none` models the 404 outcome, `some` the returned session.  The handler
consults only membership in the store; it performs no expiry check. -/
def get_session (store : SessionStore) (session_id : String) : Option StoredSession :=
  match dictLookup store session_id with
  | none => none
  | some sess => some sess

/-- Embedding of the `DELETE /session/:id` handler (main.py lines 1553-1559):
`none` models the 404 outcome, `some` the store after deletion. -/
def delete_session (store : SessionStore) (session_id : String) : Option SessionStore :=
  match dictLookup store session_id with
  | some _ => some (dictDel store session_id)
  | none => none

/-! Guardrail classifier.  The spec's component 4.2 (`isOnTopic`) has no
implementation under `src/`; only the cheap keyword pre-filter of `/chat`
(main.py lines 1243-1250), which biases the extraction prompt, is present.
The definitions below are therefore modelled from the spec's words. -/

/-- Prefix test on character lists. -/
def isPrefixCh : List Char → List Char → Bool
  | [], _ => true
  | _ :: _, [] => false
  | a :: as, b :: bs => a == b && isPrefixCh as bs

/-- Substring test on character lists: does `pat` occur contiguously in the text? -/
def containsCh (pat : List Char) : List Char → Bool
  | [] => isPrefixCh pat []
  | c :: rest => isPrefixCh pat (c :: rest) || containsCh pat rest

/-- Whitespace for trimming and word splitting. -/
def isSpaceCh (c : Char) : Bool :=
  c == ' ' || c == '\t' || c == '\n' || c == '\r'

/-- Trim leading and trailing whitespace from a character list. -/
def trimCh (cs : List Char) : List Char :=
  ((cs.dropWhile isSpaceCh).reverse.dropWhile isSpaceCh).reverse

/-- Lower-case a character (ASCII). -/
def lowerCh (c : Char) : Char :=
  if 'A' ≤ c && c ≤ 'Z' then Char.ofNat (c.toNat + 32) else c

/-- Split a character list into whitespace-separated words. -/
def wordsOfAux (acc : List Char) : List Char → List (List Char)
  | [] => if acc.isEmpty then [] else [acc.reverse]
  | c :: rest =>
    if isSpaceCh c then
      if acc.isEmpty then wordsOfAux [] rest else acc.reverse :: wordsOfAux [] rest
    else wordsOfAux (c :: acc) rest

/-- The words of a character list. -/
def wordsOf (cs : List Char) : List (List Char) := wordsOfAux [] cs

/-- Modelled from the spec: off-topic phrases of rule 4 of section 4.2
(greetings, small talk, unrelated entertainment/weather topics). -/
def OFF_TOPIC_PHRASES : List String :=
  ["hi", "hello", "hey", "how are you", "good morning", "good evening",
   "thanks", "thank you", "bye", "weather", "movie", "music", "song", "joke",
   "sports", "game"]

/-- Modelled from the spec: strong domain keywords of rule 5 of section 4.2
(the topic's own vocabulary). -/
def STRONG_KEYWORDS : List String :=
  ["insurance", "plan", "coverage", "copay", "deductible", "premium",
   "medicare", "medicaid", "insurer", "hmo", "ppo", "enrollment", "policy",
   "network", "provider", "subsidy", "benefit", "claim"]

/-- Modelled from the spec: weaker domain keywords of rule 6 of section 4.2. -/
def WEAK_KEYWORDS : List String :=
  ["cover", "cost", "doctor", "hospital", "health", "medical", "county",
   "income", "age", "dental", "vision", "prescription"]

/-- Modelled from the spec: the Guardrail Classifier `isOnTopic` of section
4.2 is absent from `src/`; rules 1 to 9 are implemented in their stated
order over the trimmed, lower-cased utterance. -/
def isOnTopic (utterance : String) : Bool :=
  let t := trimCh utterance.toList
  let lw := t.map lowerCh
  let wc := (wordsOf lw).length
  if t.length < 2 then false
  else if t.all (fun c => c.isDigit) then true
  else if t.length == 1 then false
  else if OFF_TOPIC_PHRASES.any (fun p => containsCh p.toList lw) && wc ≤ 3 then false
  else if STRONG_KEYWORDS.any (fun p => containsCh p.toList lw) then true
  else if WEAK_KEYWORDS.any (fun p => containsCh p.toList lw) && wc ≥ 3 then true
  else if wc ≥ 5 then true
  else false

/-- Outcome of the guarded entry of a turn. -/
inductive TurnAction where
  | rejected
  | extractThenProceed
deriving Repr, DecidableEq

/-- Modelled from the spec: step 1 of the per-turn algorithm of section 4.6
(also absent from `src/`): when the stage is not `collecting` and the
utterance fails the guardrail, the turn is rejected before the external
extraction call is made. -/
def guardStep (stage : String) (utterance : String) : TurnAction :=
  if stage != "collecting" && !(isOnTopic utterance) then TurnAction.rejected
  else TurnAction.extractThenProceed

/-! Helper lemmas about the dictionary model. -/

theorem dictSet_of_lookup_eq {α : Type} {m : List (String × α)} {k : String} {v : α}
    (h : dictLookup m k = some v) : dictSet m k v = m := by
  induction m with
  | nil => simp [dictLookup] at h
  | cons kv rest ih =>
    obtain ⟨k', v'⟩ := kv
    by_cases hk : k' = k
    · subst hk
      simp [dictLookup] at h
      simp [dictSet, h]
    · simp [dictLookup, hk] at h
      simp [dictSet, hk, ih h]

theorem dictLookup_dictSet_ne {α : Type} (m : List (String × α)) {k k' : String} (v : α)
    (h : k ≠ k') : dictLookup (dictSet m k v) k' = dictLookup m k' := by
  induction m with
  | nil => simp [dictSet, dictLookup, h]
  | cons kv rest ih =>
    obtain ⟨a, b⟩ := kv
    by_cases ha : a = k
    · subst ha
      simp [dictSet, dictLookup, h]
    · simp [dictSet, ha, dictLookup, ih]

theorem dictLookup_dictDel_self {α : Type} (m : List (String × α)) (k : String) :
    dictLookup (dictDel m k) k = none := by
  induction m with
  | nil => rfl
  | cons kv rest ih =>
    obtain ⟨a, b⟩ := kv
    by_cases ha : a = k
    · subst ha
      simp [dictDel, dictLookup] at ih ⊢
      exact ih
    · simp [dictDel, dictLookup, ha] at ih ⊢
      exact ih

/-! Helper lemmas about the missing-entity computation. -/

theorem missingPred_iff {m : List (String × String)} {e : String} :
    ((match dictLookup m e with
      | none => true
      | some v => v == "") = true) ↔ dictLookup m e = none ∨ dictLookup m e = some "" := by
  cases h : dictLookup m e with
  | none => simp
  | some v => simp [beq_iff_eq]

theorem mem_missingEntities {req : List String} {m : List (String × String)} {e : String} :
    e ∈ missingEntities req m ↔
      e ∈ req ∧ (dictLookup m e = none ∨ dictLookup m e = some "") := by
  simp only [missingEntities, List.mem_filter, missingPred_iff]

theorem missingEntities_eq_nil_iff {req : List String} {m : List (String × String)} :
    missingEntities req m = [] ↔
      ∀ e ∈ req, ∃ v, dictLookup m e = some v ∧ v ≠ "" := by
  rw [List.eq_nil_iff_forall_not_mem]
  constructor
  · intro h e he
    cases hl : dictLookup m e with
    | none => exact absurd (mem_missingEntities.mpr ⟨he, Or.inl hl⟩) (h e)
    | some v =>
      refine ⟨v, rfl, fun hv => ?_⟩
      exact absurd (mem_missingEntities.mpr ⟨he, Or.inr (hv ▸ hl)⟩) (h e)
  · intro h e hmem
    obtain ⟨he, hl | hl⟩ := mem_missingEntities.mp hmem
    · obtain ⟨v, hv, -⟩ := h e he
      rw [hv] at hl
      exact Option.noConfusion hl
    · obtain ⟨v, hv, hne⟩ := h e he
      rw [hv] at hl
      injection hl with hl
      exact hne hl

theorem not_mem_missingEntities_of_lookup {req : List String} {m : List (String × String)}
    {e v : String} (hl : dictLookup m e = some v) (hv : v ≠ "") :
    e ∉ missingEntities req m := by
  rw [mem_missingEntities]
  rintro ⟨-, h | h⟩
  · rw [hl] at h
    exact Option.noConfusion h
  · rw [hl] at h
    injection h with h
    exact hv h

/-! Helper lemmas about the merge loop. -/

theorem mergeEntities_nil (cfg : Config) (i : String) (m : List (String × String)) :
    mergeEntities cfg i m [] = m := rfl

theorem mergeEntities_cons (cfg : Config) (i : String) (m : List (String × String))
    (kv : String × String) (E : List (String × String)) :
    mergeEntities cfg i m (kv :: E) =
      mergeEntities cfg i
        (if cfg.valid_entities.contains kv.1 && kv.2 != "" then
           if i == "News" && kv.1 == "topic" then m else dictSet m kv.1 kv.2
         else m) E := rfl

theorem dictLookup_mergeEntities_news_topic (cfg : Config)
    (m E : List (String × String)) :
    dictLookup (mergeEntities cfg "News" m E) "topic" = dictLookup m "topic" := by
  induction E generalizing m with
  | nil => rfl
  | cons kv E ih =>
    rw [mergeEntities_cons, ih]
    split
    · split
      · rfl
      · next h2 =>
        refine dictLookup_dictSet_ne m kv.2 ?_
        intro he
        apply h2
        simp [he]
    · rfl

theorem mergeEntities_resubmit (cfg : Config) (d : String) {m : List (String × String)}
    {e v : String} (h : dictLookup m e = some v) :
    mergeEntities cfg d m [(e, v)] = m := by
  rw [mergeEntities_cons, mergeEntities_nil]
  split
  · split
    · rfl
    · exact dictSet_of_lookup_eq h
  · rfl

/-! Helper lemmas about the stages of one turn. -/

theorem completeClear_of_ne {s : ChatSession} (h : s.stage ≠ "complete") :
    completeClear s = s := by
  unfold completeClear
  rw [if_neg]
  simpa using h

theorem completeClear_of_eq {s : ChatSession} (h : s.stage = "complete") :
    completeClear s =
      { s with collected_entities := [], intent := none, stage := "initial" } := by
  unfold completeClear
  rw [if_pos]
  simpa using h

theorem completeClear_stage_ne (s : ChatSession) : (completeClear s).stage ≠ "complete" := by
  unfold completeClear
  split
  · simp
  · next h => simpa using h

theorem confirmTurn_fst (cfg : Config) (s : ChatSession) (d : String) :
    (confirmTurn cfg s d).1 =
      { s with pending_entity_confirmation :=
                 some ⟨d, reusableEntities cfg d s.collected_entities⟩,
               stage := "confirming_entities" } := rfl

theorem collectingTurn_fst_intent (cfg : Config) (s : ChatSession) (d : String)
    (es : List (String × String)) : (collectingTurn cfg s d es).1.intent = s.intent := rfl

theorem collectingTurn_fst_stage (cfg : Config) (s : ChatSession) (d : String)
    (es : List (String × String)) : (collectingTurn cfg s d es).1.stage = "collecting" := rfl

theorem collectingTurn_fst_collected (cfg : Config) (s : ChatSession) (d : String)
    (es : List (String × String)) :
    (collectingTurn cfg s d es).1.collected_entities = s.collected_entities := rfl

theorem collectingTurn_snd_next (cfg : Config) (s : ChatSession) (d : String)
    (es : List (String × String)) :
    (collectingTurn cfg s d es).2.next_question =
      determine_next_question cfg s.collected_entities d := rfl

theorem collectingTurn_snd_status (cfg : Config) (s : ChatSession) (d : String)
    (es : List (String × String)) : (collectingTurn cfg s d es).2.status = "collecting" := rfl

theorem searchTurn_ok_fst_stage (s : ChatSession) (d : String) (r : List String) :
    (searchTurn s d (Except.ok r)).1.stage = "complete" := rfl

theorem searchTurn_ok_snd_status (s : ChatSession) (d : String) (r : List String) :
    (searchTurn s d (Except.ok r)).2.status = "complete" := rfl

theorem searchTurn_ok_snd_results (s : ChatSession) (d : String) (r : List String) :
    (searchTurn s d (Except.ok r)).2.search_results = some r := rfl

theorem searchTurn_ok_snd_collected (s : ChatSession) (d : String) (r : List String) :
    (searchTurn s d (Except.ok r)).2.collected_entities = s.collected_entities := rfl

theorem searchTurn_error_fst_stage (s : ChatSession) (d e : String) :
    (searchTurn s d (Except.error e)).1.stage = "searching" := rfl

theorem searchTurn_error_fst_collected (s : ChatSession) (d e : String) :
    (searchTurn s d (Except.error e)).1.collected_entities = s.collected_entities := rfl

theorem searchTurn_error_snd_status (s : ChatSession) (d e : String) :
    (searchTurn s d (Except.error e)).2.status = "error" := rfl

theorem searchTurn_error_snd_results (s : ChatSession) (d e : String) :
    (searchTurn s d (Except.error e)).2.search_results = none := rfl

theorem searchTurn_error_snd_collected (s : ChatSession) (d e : String) :
    (searchTurn s d (Except.error e)).2.collected_entities = s.collected_entities := rfl

theorem chatProceed_of_missing_ne (cfg : Config) (s : ChatSession) (d : String)
    (es : List (String × String)) (so : Except String (List String))
    (hmiss : missingEntities (requiredForSession cfg s.intent)
        (mergeEntities cfg d s.collected_entities es) ≠ [])
    (hstage : s.stage ≠ "complete") :
    chatProceed cfg s d es so =
      collectingTurn cfg
        { s with collected_entities := mergeEntities cfg d s.collected_entities es }
        d es := by
  unfold chatProceed
  dsimp only
  rw [if_pos]
  rw [Bool.and_eq_true]
  refine ⟨?_, bne_iff_ne.mpr hstage⟩
  rw [Bool.not_eq_true', ← Bool.not_eq_true]
  simpa [List.isEmpty_iff] using hmiss

theorem chatProceed_of_missing_nil (cfg : Config) (s : ChatSession) (d : String)
    (es : List (String × String)) (so : Except String (List String))
    (hmiss : missingEntities (requiredForSession cfg s.intent)
        (mergeEntities cfg d s.collected_entities es) = []) :
    chatProceed cfg s d es so =
      searchTurn
        { s with collected_entities := mergeEntities cfg d s.collected_entities es }
        d so := by
  unfold chatProceed
  dsimp only
  rw [if_neg]
  rw [Bool.and_eq_true]
  rintro ⟨h1, -⟩
  rw [Bool.not_eq_true'] at h1
  rw [← Bool.not_eq_true] at h1
  simp [List.isEmpty_iff, hmiss] at h1

theorem chatProceed_fst_intent (cfg : Config) (s : ChatSession) (d : String)
    (es : List (String × String)) (so : Except String (List String)) :
    (chatProceed cfg s d es so).1.intent = s.intent := by
  unfold chatProceed
  dsimp only
  split
  · rfl
  · cases so <;> rfl

theorem chatProceed_fst_collected (cfg : Config) (s : ChatSession) (d : String)
    (es : List (String × String)) (so : Except String (List String)) :
    (chatProceed cfg s d es so).1.collected_entities =
      mergeEntities cfg d s.collected_entities es := by
  unfold chatProceed
  dsimp only
  split
  · rfl
  · cases so <;> rfl

theorem chatProceed_fst_pending (cfg : Config) (s : ChatSession) (d : String)
    (es : List (String × String)) (so : Except String (List String)) :
    (chatProceed cfg s d es so).1.pending_entity_confirmation =
      s.pending_entity_confirmation := by
  unfold chatProceed
  dsimp only
  split
  · rfl
  · cases so <;> rfl

/-! Path lemmas for one `/chat` turn. -/

theorem chatTurn_keep (cfg : Config) (s0 : ChatSession) (q d : String)
    (es : List (String × String)) (so : Except String (List String))
    (hstage : s0.stage = "collecting") (hint : optTruthy s0.intent = true) :
    chatTurn cfg s0 q d es so =
      chatProceed cfg
        { s0 with conversation_history := s0.conversation_history ++ [q] } d es so := by
  unfold chatTurn
  dsimp only
  rw [completeClear_of_ne (by simp [hstage])]
  rw [if_neg]
  simp [hstage, hint]

theorem chatTurn_adopt_of_intent_none (cfg : Config) (s0 : ChatSession) (q d : String)
    (es : List (String × String)) (so : Except String (List String))
    (hint : s0.intent = none) (hcomp : s0.stage ≠ "complete") :
    chatTurn cfg s0 q d es so =
      chatProceed cfg
        { s0 with conversation_history := s0.conversation_history ++ [q],
                  intent := some d } d es so := by
  unfold chatTurn
  dsimp only
  rw [completeClear_of_ne (by simpa using hcomp)]
  rw [if_pos (by simp [hint, optTruthy])]
  rw [if_neg (by simp [hint, optTruthy])]

theorem chatTurn_reconcile (cfg : Config) (s0 : ChatSession) (q d : String)
    (es : List (String × String)) (so : Except String (List String))
    (hstage : s0.stage ≠ "collecting") (hcomp : s0.stage ≠ "complete")
    (hint : optTruthy s0.intent = true) (hdiff : s0.intent.getD "" ≠ d)
    (hne : s0.collected_entities ≠ []) :
    (reusableEntities cfg d s0.collected_entities ≠ [] →
       chatTurn cfg s0 q d es so =
         confirmTurn cfg
           { s0 with conversation_history := s0.conversation_history ++ [q] } d) ∧
    (reusableEntities cfg d s0.collected_entities = [] →
       chatTurn cfg s0 q d es so =
         chatProceed cfg
           { s0 with conversation_history := s0.conversation_history ++ [q],
                     collected_entities := [], intent := some d } d es so) := by
  unfold chatTurn
  dsimp only
  rw [completeClear_of_ne (by simpa using hcomp)]
  rw [if_pos (by simp [hstage])]
  rw [if_pos (by simp [hint, hdiff, hne])]
  constructor
  · intro hr
    rw [if_pos (by simpa [List.isEmpty_iff] using hr)]
  · intro hr
    rw [if_neg (by simp [List.isEmpty_iff, hr])]

theorem chatTurn_cases (cfg : Config) (s0 : ChatSession) (q d : String)
    (es : List (String × String)) (so : Except String (List String)) :
    (∃ s2 : ChatSession, optTruthy s2.intent = true ∧
        s2.collected_entities = s0.collected_entities ∧
        s2.pending_entity_confirmation = s0.pending_entity_confirmation ∧
        chatTurn cfg s0 q d es so = confirmTurn cfg s2 d) ∨
    (∃ s2 : ChatSession, s2.intent ≠ none ∧ s2.stage ≠ "complete" ∧
        s2.pending_entity_confirmation = s0.pending_entity_confirmation ∧
        (s2.collected_entities = s0.collected_entities ∨ s2.collected_entities = []) ∧
        chatTurn cfg s0 q d es so = chatProceed cfg s2 d es so) := by
  unfold chatTurn
  dsimp only
  by_cases hcc : s0.stage = "complete"
  · rw [completeClear_of_eq (s := { s0 with
      conversation_history := s0.conversation_history ++ [q] }) (by simpa using hcc)]
    rw [if_pos (by simp)]
    rw [if_neg (by simp [optTruthy])]
    right
    exact ⟨_, by simp, by simp, by simp, Or.inr (by simp), rfl⟩
  · rw [completeClear_of_ne (s := { s0 with
      conversation_history := s0.conversation_history ++ [q] }) (by simpa using hcc)]
    by_cases h1 : (({ s0 with
        conversation_history := s0.conversation_history ++ [q] } : ChatSession).stage
          != "collecting"
        || !(optTruthy ({ s0 with
            conversation_history := s0.conversation_history ++ [q] } : ChatSession).intent)) = true
    · rw [if_pos h1]
      by_cases h2 : (optTruthy ({ s0 with
            conversation_history := s0.conversation_history ++ [q] } : ChatSession).intent
          && (({ s0 with
              conversation_history := s0.conversation_history ++ [q] } : ChatSession).intent.getD ""
              != d)
          && !(({ s0 with
              conversation_history := s0.conversation_history ++ [q] } : ChatSession).collected_entities.isEmpty)) = true
      · rw [if_pos h2]
        by_cases h3 : (!(reusableEntities cfg d ({ s0 with
            conversation_history := s0.conversation_history ++ [q] } : ChatSession).collected_entities).isEmpty) = true
        · rw [if_pos h3]
          left
          refine ⟨_, ?_, by simp, by simp, rfl⟩
          simp only [Bool.and_eq_true] at h2
          exact h2.1.1
        · rw [if_neg h3]
          right
          exact ⟨_, by simp, by simpa using hcc, by simp, Or.inr (by simp), rfl⟩
      · rw [if_neg h2]
        right
        exact ⟨_, by simp, by simpa using hcc, by simp, Or.inl (by simp), rfl⟩
    · rw [if_neg h1]
      right
      refine ⟨_, ?_, by simpa using hcc, by simp, Or.inl (by simp), rfl⟩
      simp only [Bool.or_eq_true, not_or, Bool.not_eq_true] at h1
      obtain ⟨-, h1b⟩ := h1
      intro hnone
      rw [show ({ s0 with
        conversation_history := s0.conversation_history ++ [q] } : ChatSession).intent
          = s0.intent from rfl, hnone] at h1b
      simp [optTruthy] at h1b

/-- The session invariant of the spec's data-model section: a session past the
initial stage has a topic, and a completed session holds a non-empty value for
every required slot of its topic. -/
def sessionInvariant (cfg : Config) (s : ChatSession) : Prop :=
  (s.stage ≠ "initial" → s.intent ≠ none) ∧
  (s.stage = "complete" →
    ∀ e ∈ requiredForSession cfg s.intent,
      ∃ v, dictLookup s.collected_entities e = some v ∧ v ≠ "")

theorem chatProceed_invariant (cfg : Config) (s : ChatSession) (d : String)
    (es : List (String × String)) (so : Except String (List String))
    (hint : s.intent ≠ none) (hstage : s.stage ≠ "complete") :
    sessionInvariant cfg (chatProceed cfg s d es so).1 := by
  by_cases hm : missingEntities (requiredForSession cfg s.intent)
      (mergeEntities cfg d s.collected_entities es) = []
  · rw [chatProceed_of_missing_nil cfg s d es so hm]
    cases so with
    | ok r =>
      constructor
      · intro _
        exact hint
      · intro _ e he
        exact missingEntities_eq_nil_iff.mp hm e he
    | error err =>
      constructor
      · intro _
        exact hint
      · intro hc
        rw [searchTurn_error_fst_stage] at hc
        exact absurd hc (by decide)
  · rw [chatProceed_of_missing_ne cfg s d es so hm hstage]
    constructor
    · intro _
      exact hint
    · intro hc
      rw [collectingTurn_fst_stage] at hc
      exact absurd hc (by decide)

/-- A concrete registry used for the concrete runs below: a small set of
topics with their ordered required slots, an optional slot for `AgeOnly`, and
one distinct question per slot. -/
def regCfg : Config :=
  { valid_entities := ["plan_name", "insurer", "year", "county", "age",
      "coverage_item", "subtype", "provider_name", "specialty", "features",
      "topic", "state", "income"],
    required_of := fun i =>
      if i == "General" then ["age", "county"]
      else if i == "FAQ" then ["topic"]
      else if i == "News" then ["topic"]
      else if i == "PlanDeep" then ["age", "topic"]
      else if i == "CountyOnly" then ["county"]
      else if i == "AgeOnly" then ["age"]
      else [],
    optional_of := fun i => if i == "AgeOnly" then ["county"] else [],
    question_of := fun e => "Q:" ++ e }

/-- The reusable subset as the spec's words describe it (section 4.5): the
intersection of the collected slots with the union of the new topic's
required and optional slots.  Stated for comparison with `reusableEntities`,
the computation the code performs. -/
def specReusableEntities (cfg : Config) (new_intent : String)
    (collected : List (String × String)) : List (String × String) :=
  collected.filter (fun kv =>
    (cfg.required_of new_intent ++ cfg.optional_of new_intent).contains kv.1)

/-! The claims. -/

/-- C1: the claim says the prompt returned by a collecting turn is the prompt
for the first missing required slot of the session's current topic.  The code
computes the missing list from the session intent (main.py line 1397) but
passes the newly detected intent to `determine_next_question` (line 1434),
contradicting its own comments (lines 1334-1335, 1395-1396).  At this input
the session topic is `General` with `missing = [county]`, the extractor
detects `FAQ`, and the returned prompt is the question for `topic`, not the
question for `county`. -/
theorem C1_prompt_follows_detected_intent_bug :
    missingEntities (regCfg.required_of "General")
        (chatTurn regCfg
          { intent := some "General", stage := "collecting",
            collected_entities := [("age", "43")],
            pending_entity_confirmation := none,
            conversation_history := ["hello I need insurance"] }
          "what is a deductible" "FAQ" [] (Except.error "na")).1.collected_entities
      = ["county"] ∧
    (chatTurn regCfg
          { intent := some "General", stage := "collecting",
            collected_entities := [("age", "43")],
            pending_entity_confirmation := none,
            conversation_history := ["hello I need insurance"] }
          "what is a deductible" "FAQ" [] (Except.error "na")).2.next_question
      = some (regCfg.question_of "topic") ∧
    (chatTurn regCfg
          { intent := some "General", stage := "collecting",
            collected_entities := [("age", "43")],
            pending_entity_confirmation := none,
            conversation_history := ["hello I need insurance"] }
          "what is a deductible" "FAQ" [] (Except.error "na")).2.next_question
      ≠ some (regCfg.question_of "county") := by
  refine ⟨by decide, by decide, by decide⟩

/-- C2 counterexample: the claim computes the reusable subset against
`requiredSlots ∪ optionalSlots` of the new topic.  The code intersects with
the required slots only (main.py lines 1343-1344).  For the new topic
`AgeOnly`, whose required slots are `[age]` and whose optional slots are
`[county]`, the spec's computation proposes reuse of `{county: Y}`, but the
turn clears the collected slots and proceeds with no confirmation. -/
theorem C2_counterexample_optional_not_reused :
    specReusableEntities regCfg "AgeOnly" [("plan_name", "X"), ("county", "Y")]
      = [("county", "Y")] ∧
    (chatTurn regCfg
        { intent := some "General", stage := "searching",
          collected_entities := [("plan_name", "X"), ("county", "Y")],
          pending_entity_confirmation := none, conversation_history := ["q0"] }
        "switch" "AgeOnly" [] (Except.error "na")).1.pending_entity_confirmation = none ∧
    (chatTurn regCfg
        { intent := some "General", stage := "searching",
          collected_entities := [("plan_name", "X"), ("county", "Y")],
          pending_entity_confirmation := none, conversation_history := ["q0"] }
        "switch" "AgeOnly" [] (Except.error "na")).1.collected_entities = [] ∧
    (chatTurn regCfg
        { intent := some "General", stage := "searching",
          collected_entities := [("plan_name", "X"), ("county", "Y")],
          pending_entity_confirmation := none, conversation_history := ["q0"] }
        "switch" "AgeOnly" [] (Except.error "na")).2.status = "collecting" := by
  refine ⟨by decide, by decide, by decide, by decide⟩

/-- C2 (amended): when the detected topic differs from the session topic and
collected slots are non-empty, the reusable subset is the intersection of the
collected slots with the new topic's REQUIRED slots only; if that subset is
non-empty the turn stores it as the pending confirmation and moves to the
confirming stage without merging, and if it is empty the collected slots are
cleared and the turn proceeds as a fresh topic with no confirmation step. -/
theorem C2_reconciliation_required_only (cfg : Config) (s : ChatSession) (q d : String)
    (es : List (String × String)) (so : Except String (List String))
    (hstage : s.stage ≠ "collecting") (hcomp : s.stage ≠ "complete")
    (hint : optTruthy s.intent = true) (hdiff : s.intent.getD "" ≠ d)
    (hne : s.collected_entities ≠ []) :
    (reusableEntities cfg d s.collected_entities ≠ [] →
       (chatTurn cfg s q d es so).1.pending_entity_confirmation =
         some ⟨d, reusableEntities cfg d s.collected_entities⟩ ∧
       (chatTurn cfg s q d es so).1.stage = "confirming_entities" ∧
       (chatTurn cfg s q d es so).2.requires_input = true ∧
       (chatTurn cfg s q d es so).1.collected_entities = s.collected_entities) ∧
    (reusableEntities cfg d s.collected_entities = [] →
       (chatTurn cfg s q d es so).1.pending_entity_confirmation =
         s.pending_entity_confirmation ∧
       (chatTurn cfg s q d es so).1.intent = some d ∧
       (chatTurn cfg s q d es so).1.collected_entities = mergeEntities cfg d [] es) := by
  obtain ⟨hconf, hclear⟩ := chatTurn_reconcile cfg s q d es so hstage hcomp hint hdiff hne
  constructor
  · intro hr
    rw [hconf hr, confirmTurn_fst]
    exact ⟨rfl, rfl, rfl, rfl⟩
  · intro hr
    rw [hclear hr]
    refine ⟨?_, ?_, ?_⟩
    · rw [chatProceed_fst_pending]
    · rw [chatProceed_fst_intent]
    · rw [chatProceed_fst_collected]

/-- C2 witness: a concrete intent switch to `CountyOnly` (required `[county]`)
with collected `{plan_name: X, county: Y}` yields the pending confirmation
with exactly `{county: Y}`. -/
theorem C2_reconciliation_required_only_witness :
    (chatTurn regCfg
        { intent := some "General", stage := "searching",
          collected_entities := [("plan_name", "X"), ("county", "Y")],
          pending_entity_confirmation := none, conversation_history := ["q0"] }
        "switch" "CountyOnly" [] (Except.error "na")).1.pending_entity_confirmation
      = some ⟨"CountyOnly", [("county", "Y")]⟩ :=
  (((C2_reconciliation_required_only regCfg
      { intent := some "General", stage := "searching",
        collected_entities := [("plan_name", "X"), ("county", "Y")],
        pending_entity_confirmation := none, conversation_history := ["q0"] }
      "switch" "CountyOnly" [] (Except.error "na")
      (by decide) (by decide) (by decide) (by decide) (by decide)).1
    (by decide)).1).trans (by decide)

/-- C3: every `/chat` turn leaves the session satisfying the invariant: a
stage other than `initial` has a non-null intent, and at stage `complete`
every required slot of the session topic is present with a non-empty value.
The statement quantifies over every starting session and every outcome of the
external extraction and search calls. -/
theorem C3_session_invariant_preserved (cfg : Config) (s0 : ChatSession) (q d : String)
    (es : List (String × String)) (so : Except String (List String)) :
    sessionInvariant cfg (chatTurn cfg s0 q d es so).1 := by
  rcases chatTurn_cases cfg s0 q d es so with
    ⟨s2, hint, -, -, heq⟩ | ⟨s2, hint, hnc, -, -, heq⟩
  · rw [heq]
    constructor
    · intro _
      rw [confirmTurn_fst]
      have hs2 : s2.intent ≠ none := by
        intro h
        rw [h] at hint
        simp [optTruthy] at hint
      simpa using hs2
    · intro hc
      rw [confirmTurn_fst] at hc
      simp at hc
  · rw [heq]
    exact chatProceed_invariant cfg s2 d es so hint hnc

/-- C4: when every required slot of the session topic is present after the
merge, the turn runs the search.  On success the session stage becomes
`complete` and the response carries status `complete` with the raw results;
on failure the response status is `error`, no results are attached, the
session stage is left at `searching`, and the collected slots (session and
response) still hold the merged map, so a retry is possible. -/
theorem C4_retrieval_outcome_handling (cfg : Config) (s : ChatSession) (q d : String)
    (es : List (String × String)) (so : Except String (List String))
    (hstage : s.stage = "collecting") (hint : optTruthy s.intent = true)
    (hmiss : missingEntities (requiredForSession cfg s.intent)
        (mergeEntities cfg d s.collected_entities es) = []) :
    (∀ r, so = Except.ok r →
       (chatTurn cfg s q d es so).1.stage = "complete" ∧
       (chatTurn cfg s q d es so).2.status = "complete" ∧
       (chatTurn cfg s q d es so).2.search_results = some r ∧
       (chatTurn cfg s q d es so).2.collected_entities =
         mergeEntities cfg d s.collected_entities es) ∧
    (∀ err, so = Except.error err →
       (chatTurn cfg s q d es so).2.status = "error" ∧
       (chatTurn cfg s q d es so).2.search_results = none ∧
       (chatTurn cfg s q d es so).1.stage = "searching" ∧
       (chatTurn cfg s q d es so).1.collected_entities =
         mergeEntities cfg d s.collected_entities es ∧
       (chatTurn cfg s q d es so).2.collected_entities =
         mergeEntities cfg d s.collected_entities es) := by
  rw [chatTurn_keep cfg s q d es so hstage hint]
  rw [chatProceed_of_missing_nil _ _ _ _ _ (by exact hmiss)]
  constructor
  · rintro r rfl
    exact ⟨searchTurn_ok_fst_stage _ _ _, searchTurn_ok_snd_status _ _ _,
      searchTurn_ok_snd_results _ _ _, searchTurn_ok_snd_collected _ _ _⟩
  · rintro err rfl
    exact ⟨searchTurn_error_snd_status _ _ _, searchTurn_error_snd_results _ _ _,
      searchTurn_error_fst_stage _ _ _, searchTurn_error_fst_collected _ _ _,
      searchTurn_error_snd_collected _ _ _⟩

/-- C4 witness: a fully collected `FAQ` session whose search call fails
returns status `error` and keeps its collected slot. -/
theorem C4_retrieval_outcome_handling_witness :
    (chatTurn regCfg
        { intent := some "FAQ", stage := "collecting",
          collected_entities := [("topic", "hmo")],
          pending_entity_confirmation := none, conversation_history := ["q0"] }
        "go" "FAQ" [] (Except.error "boom")).2.status = "error" ∧
    (chatTurn regCfg
        { intent := some "FAQ", stage := "collecting",
          collected_entities := [("topic", "hmo")],
          pending_entity_confirmation := none, conversation_history := ["q0"] }
        "go" "FAQ" [] (Except.error "boom")).1.collected_entities = [("topic", "hmo")] := by
  obtain ⟨-, h⟩ := C4_retrieval_outcome_handling regCfg
    { intent := some "FAQ", stage := "collecting",
      collected_entities := [("topic", "hmo")],
      pending_entity_confirmation := none, conversation_history := ["q0"] }
    "go" "FAQ" [] (Except.error "boom") (by decide) (by decide) (by decide)
  obtain ⟨h1, -, -, h4, -⟩ := h "boom" rfl
  exact ⟨h1, h4.trans (by decide)⟩

theorem get_or_create_session_refreshes (st : SessionStore) (si : Option String)
    (no : Nat) (fi : String) :
    (get_or_create_session st si no fi).2.1.last_activity = no := by
  unfold get_or_create_session
  dsimp only
  split
  · split
    · rfl
    · rfl
  · rfl

/-- C5: `get_or_create_session` on an id whose stored session has been
inactive for more than one hour deletes that session and returns a fresh one
under the newly generated id, at stage `initial` with empty collected slots
and empty history; and every call returns a session whose `last_activity` is
the current time. -/
theorem C5_expired_session_recreated (store : SessionStore) (sid fresh_id : String)
    (sess : StoredSession) (now : Nat)
    (hlook : dictLookup store sid = some sess)
    (hexp : now - sess.last_activity > SESSION_TIMEOUT)
    (hfresh : fresh_id ≠ sid) (hsid : sid ≠ "") :
    (get_or_create_session store (some sid) now fresh_id).1 = fresh_id ∧
    (get_or_create_session store (some sid) now fresh_id).2.1 = freshSession now fresh_id ∧
    (get_or_create_session store (some sid) now fresh_id).2.1.stage = "initial" ∧
    (get_or_create_session store (some sid) now fresh_id).2.1.collected_entities = [] ∧
    (get_or_create_session store (some sid) now fresh_id).2.1.conversation_history = [] ∧
    dictLookup (get_or_create_session store (some sid) now fresh_id).2.2 sid = none ∧
    (∀ (st : SessionStore) (si : Option String) (no : Nat) (fi : String),
       (get_or_create_session st si no fi).2.1.last_activity = no) := by
  have hstep : get_or_create_session store (some sid) now fresh_id =
      (fresh_id, freshSession now fresh_id,
        dictSet (dictDel store sid) fresh_id (freshSession now fresh_id)) := by
    unfold get_or_create_session
    dsimp only
    rw [if_neg (by simpa using hsid)]
    rw [hlook]
    dsimp only
    rw [if_pos hexp]
  rw [hstep]
  refine ⟨rfl, rfl, rfl, rfl, rfl, ?_, get_or_create_session_refreshes⟩
  rw [dictLookup_dictSet_ne _ _ hfresh]
  exact dictLookup_dictDel_self store sid

/-- A stored session last active at time 0, used in the concrete store runs. -/
def staleSess : StoredSession :=
  { id := "abc", created_at := 0, last_activity := 0, collected_entities := [],
    conversation_history := [], intent := none, stage := "initial",
    pending_entity_confirmation := none }

/-- C5 witness: at time 7200 the session stored under `abc` (inactive since
time 0) is replaced: the call returns the fresh id and the old id is gone
from the store. -/
theorem C5_expired_session_recreated_witness :
    (get_or_create_session [("abc", staleSess)] (some "abc") 7200 "fresh-1").1 = "fresh-1" ∧
    dictLookup (get_or_create_session [("abc", staleSess)] (some "abc") 7200 "fresh-1").2.2
      "abc" = none := by
  obtain ⟨h1, -, -, -, -, h6, -⟩ := C5_expired_session_recreated
    [("abc", staleSess)] "abc" "fresh-1" staleSess 7200
    (by decide) (by decide) (by decide) (by decide)
  exact ⟨h1, h6⟩

/-- C6 (spec-modelled: the guardrail classifier is not part of `src/`): the
five contract values of `isOnTopic` hold, and a turn whose stage is not
`collecting` and whose utterance fails the guardrail is rejected before the
external extraction call. -/
theorem C6_guardrail_contract :
    (isOnTopic "42" = true ∧ isOnTopic "hi" = false ∧
     isOnTopic "hello, I need insurance" = true ∧ isOnTopic "x" = false ∧
     isOnTopic "What are the copay and deductible details for this plan" = true) ∧
    (∀ stage utterance, stage ≠ "collecting" → isOnTopic utterance = false →
       guardStep stage utterance = TurnAction.rejected) := by
  constructor
  · exact ⟨by decide, by decide, by decide, by decide, by decide⟩
  · intro stage utterance hs hu
    unfold guardStep
    rw [if_pos]
    rw [Bool.and_eq_true]
    exact ⟨bne_iff_ne.mpr hs, by rw [hu]; rfl⟩

/-- C6 witness: a turn at stage `initial` with the off-topic utterance `hi`
is rejected. -/
theorem C6_guardrail_contract_witness :
    ("initial" : String) ≠ "collecting" ∧ isOnTopic "hi" = false ∧
    guardStep "initial" "hi" = TurnAction.rejected :=
  ⟨by decide, by decide, C6_guardrail_contract.2 "initial" "hi" (by decide) (by decide)⟩

/-- C7 counterexample: the claim says the pending-reconciliation record
exists only while the stage is `confirming` and is cleared on the next user
turn.  After a turn that creates the confirmation (session topic `General`,
detected `PlanDeep`, reusable `{age: 43}`), the next user turn (detected
`General` again) moves the stage to `collecting` yet the pending record is
still present: the code never reads or clears it (it is only ever written at
main.py line 1357). -/
theorem C7_counterexample_pending_persists :
    (chatTurn regCfg
        { intent := some "General", stage := "searching",
          collected_entities := [("age", "43")],
          pending_entity_confirmation := none, conversation_history := ["q0"] }
        "deep dive" "PlanDeep" [] (Except.error "na")).1.stage = "confirming_entities" ∧
    (chatTurn regCfg
        (chatTurn regCfg
          { intent := some "General", stage := "searching",
            collected_entities := [("age", "43")],
            pending_entity_confirmation := none, conversation_history := ["q0"] }
          "deep dive" "PlanDeep" [] (Except.error "na")).1
        "yes use it" "General" [] (Except.error "na")).1.pending_entity_confirmation
      = some ⟨"PlanDeep", [("age", "43")]⟩ ∧
    (chatTurn regCfg
        (chatTurn regCfg
          { intent := some "General", stage := "searching",
            collected_entities := [("age", "43")],
            pending_entity_confirmation := none, conversation_history := ["q0"] }
          "deep dive" "PlanDeep" [] (Except.error "na")).1
        "yes use it" "General" [] (Except.error "na")).1.stage = "collecting" := by
  refine ⟨by decide, by decide, by decide⟩

/-- C7 (amended): the pending-reconciliation record is written when a turn
creates a confirmation and is never read or cleared afterwards: any turn on a
session holding a pending record leaves a non-null pending record, whatever
the user answers and whatever stage the session reaches. -/
theorem C7_pending_never_cleared (cfg : Config) (s : ChatSession) (q d : String)
    (es : List (String × String)) (so : Except String (List String))
    (p : PendingConf) (hp : s.pending_entity_confirmation = some p) :
    (chatTurn cfg s q d es so).1.pending_entity_confirmation ≠ none := by
  rcases chatTurn_cases cfg s q d es so with
    ⟨s2, -, -, -, heq⟩ | ⟨s2, -, -, hpend, -, heq⟩
  · rw [heq, confirmTurn_fst]
    simp
  · rw [heq, chatProceed_fst_pending, hpend, hp]
    simp

/-- C7 witness: a collecting-stage session holding a pending record still
holds one after the next turn. -/
theorem C7_pending_never_cleared_witness :
    (chatTurn regCfg
        { intent := some "General", stage := "collecting",
          collected_entities := [("age", "43")],
          pending_entity_confirmation := some ⟨"PlanDeep", [("age", "43")]⟩,
          conversation_history := ["q0"] }
        "Broward" "General" [("county", "Broward")]
        (Except.error "na")).1.pending_entity_confirmation ≠ none :=
  C7_pending_never_cleared regCfg
    { intent := some "General", stage := "collecting",
      collected_entities := [("age", "43")],
      pending_entity_confirmation := some ⟨"PlanDeep", [("age", "43")]⟩,
      conversation_history := ["q0"] }
    "Broward" "General" [("county", "Broward")] (Except.error "na")
    ⟨"PlanDeep", [("age", "43")]⟩ rfl

/-- C8 counterexample: the claim says fetching a session returns 404 also
when the stored session is expired.  `get_session` performs no expiry check:
with the store holding `abc` last active at time 0, at time 7200 (two hours
later, past the one-hour timeout) the fetch still returns the session. -/
theorem C8_counterexample_expired_fetch_succeeds :
    7200 - staleSess.last_activity > SESSION_TIMEOUT ∧
    get_session [("abc", staleSess)] "abc" = some staleSess := by
  constructor
  · decide
  · rfl

/-- C8 (amended): fetching a session by id returns 404 exactly when the id is
absent from the store (expiry is not checked on fetch), and deleting a
session by id returns 404 exactly when the id is absent. -/
theorem C8_not_found_iff_absent : ∀ (store : SessionStore) (sid : String),
    (get_session store sid = none ↔ dictLookup store sid = none) ∧
    (delete_session store sid = none ↔ dictLookup store sid = none) := by
  intro store sid
  constructor
  · unfold get_session
    cases h : dictLookup store sid <;> simp
  · unfold delete_session
    cases h : dictLookup store sid <;> simp

/-- C9: a collecting turn that re-submits an already-satisfied required slot
with the same value leaves the collected map unchanged, leaves the missing
list of the session topic unchanged, returns the same next question as the
turn that submits nothing, and never prompts for the re-submitted slot. -/
theorem C9_resubmission_idempotent (cfg : Config) (s : ChatSession) (q d e v : String)
    (so : Except String (List String))
    (hstage : s.stage = "collecting") (hint : optTruthy s.intent = true)
    (hl : dictLookup s.collected_entities e = some v) (hv : v ≠ "") :
    (chatTurn cfg s q d [(e, v)] so).1.collected_entities = s.collected_entities ∧
    missingEntities (requiredForSession cfg s.intent)
        (chatTurn cfg s q d [(e, v)] so).1.collected_entities =
      missingEntities (requiredForSession cfg s.intent) s.collected_entities ∧
    (chatTurn cfg s q d [(e, v)] so).2.next_question =
      (chatTurn cfg s q d [] so).2.next_question ∧
    e ∉ missingEntities (cfg.required_of d)
        (chatTurn cfg s q d [(e, v)] so).1.collected_entities := by
  rw [chatTurn_keep cfg s q d [(e, v)] so hstage hint,
      chatTurn_keep cfg s q d [] so hstage hint]
  have hm1 : mergeEntities cfg d
      ({ s with conversation_history := s.conversation_history ++ [q] } : ChatSession).collected_entities
      [(e, v)] = s.collected_entities :=
    mergeEntities_resubmit cfg d hl
  have hcol : (chatProceed cfg
      { s with conversation_history := s.conversation_history ++ [q] }
      d [(e, v)] so).1.collected_entities = s.collected_entities := by
    rw [chatProceed_fst_collected, hm1]
  refine ⟨hcol, by rw [hcol], ?_, ?_⟩
  · by_cases hmiss : missingEntities (requiredForSession cfg s.intent) s.collected_entities = []
    · rw [chatProceed_of_missing_nil cfg _ d [(e, v)] so (by rw [hm1]; exact hmiss),
          chatProceed_of_missing_nil cfg _ d [] so (by exact hmiss)]
      cases so with
      | ok r => rfl
      | error err => rfl
    · rw [chatProceed_of_missing_ne cfg _ d [(e, v)] so (by rw [hm1]; exact hmiss)
            (by simpa using hstage ▸ (by decide : ("collecting" : String) ≠ "complete")),
          chatProceed_of_missing_ne cfg _ d [] so (by exact hmiss)
            (by simpa using hstage ▸ (by decide : ("collecting" : String) ≠ "complete"))]
      rw [collectingTurn_snd_next, collectingTurn_snd_next]
      dsimp only
      rw [hm1, mergeEntities_nil]
  · rw [hcol]
    exact not_mem_missingEntities_of_lookup hl hv

/-- C9 witness: re-submitting `age = 43` mid-collection leaves the collected
map unchanged. -/
theorem C9_resubmission_idempotent_witness :
    dictLookup [("age", "43")] "age" = some "43" ∧
    (chatTurn regCfg
        { intent := some "General", stage := "collecting",
          collected_entities := [("age", "43")],
          pending_entity_confirmation := none, conversation_history := ["q0"] }
        "I am 43" "General" [("age", "43")] (Except.error "na")).1.collected_entities
      = [("age", "43")] :=
  ⟨by decide,
   (C9_resubmission_idempotent regCfg
      { intent := some "General", stage := "collecting",
        collected_entities := [("age", "43")],
        pending_entity_confirmation := none, conversation_history := ["q0"] }
      "I am 43" "General" "age" "43" (Except.error "na")
      (by decide) (by decide) (by decide) (by decide)).1⟩

/-- C10: in a turn whose newly detected intent is `News` an extracted `topic`
entity is never merged into the collected map (the merge loop skips it even
when non-empty and valid), and a fresh News conversation therefore prompts
for the topic: with `topic` the required slot of `News`, the turn asks the
topic question and the collected map still holds no topic. -/
theorem C10_news_topic_never_merged (cfg : Config) (s : ChatSession) (q : String)
    (es : List (String × String)) (so : Except String (List String))
    (hpre : dictLookup s.collected_entities "topic" = none)
    (hint : s.intent = none) (hcomp : s.stage ≠ "complete")
    (hreq : cfg.required_of "News" = ["topic"]) :
    (∀ m E, dictLookup (mergeEntities cfg "News" m E) "topic" = dictLookup m "topic") ∧
    dictLookup (chatTurn cfg s q "News" es so).1.collected_entities "topic" = none ∧
    (chatTurn cfg s q "News" es so).2.next_question = some (cfg.question_of "topic") ∧
    (chatTurn cfg s q "News" es so).2.status = "collecting" := by
  refine ⟨fun m E => dictLookup_mergeEntities_news_topic cfg m E, ?_⟩
  rw [chatTurn_adopt_of_intent_none cfg s q "News" es so hint hcomp]
  have hmerged : dictLookup (mergeEntities cfg "News" s.collected_entities es) "topic" = none := by
    rw [dictLookup_mergeEntities_news_topic]
    exact hpre
  have hmiss : missingEntities (cfg.required_of "News")
      (mergeEntities cfg "News" s.collected_entities es) = ["topic"] := by
    rw [hreq]
    simp [missingEntities, hmerged]
  rw [chatProceed_of_missing_ne cfg _ "News" es so
        (by dsimp only [requiredForSession]; rw [hmiss]; simp)
        (by simpa using hcomp)]
  refine ⟨?_, ?_, collectingTurn_snd_status _ _ _ _⟩
  · rw [collectingTurn_fst_collected]
    exact hmerged
  · rw [collectingTurn_snd_next]
    unfold determine_next_question
    dsimp only
    rw [hreq]
    rw [if_neg (by simp)]
    have hmiss2 : missingEntities ["topic"]
        (mergeEntities cfg "News" s.collected_entities es) = ["topic"] := by
      simp [missingEntities, hmerged]
    rw [hmiss2]

/-- C10 witness: the first turn of a News conversation that extracted
`topic = Medicare` still prompts for the topic and holds no topic slot. -/
theorem C10_news_topic_never_merged_witness :
    dictLookup (chatTurn regCfg
        { intent := none, stage := "initial", collected_entities := [],
          pending_entity_confirmation := none, conversation_history := [] }
        "latest medicare news" "News" [("topic", "Medicare")]
        (Except.error "na")).1.collected_entities "topic" = none ∧
    (chatTurn regCfg
        { intent := none, stage := "initial", collected_entities := [],
          pending_entity_confirmation := none, conversation_history := [] }
        "latest medicare news" "News" [("topic", "Medicare")]
        (Except.error "na")).2.next_question = some (regCfg.question_of "topic") := by
  obtain ⟨-, h2, h3, -⟩ := C10_news_topic_never_merged regCfg
    { intent := none, stage := "initial", collected_entities := [],
      pending_entity_confirmation := none, conversation_history := [] }
    "latest medicare news" [("topic", "Medicare")] (Except.error "na")
    (by decide) (by decide) (by decide) (by decide)
  exact ⟨h2, h3⟩
